import Mathlib

/-!
Verification of the Haiku selection / clipboard adapter (src/haiku_select.cc)
of GNU Emacs.

The file under verification keeps three `BClipboard` objects (primary,
secondary, system clipboard), three `int64` change counters, three `owned`
flags and one notification-identifier counter, and exposes thin wrappers
over the native clipboard and message APIs.  We embed that state shallowly:

* `HaikuClipboard` mirrors `enum haiku_clipboard`.
* `BClipboardModel` models one native `BClipboard` object: whether `Lock`
  succeeds, whether `Data` returns a message, the local data message (an
  association list from field names to payloads), the committed message,
  a commit counter and the native system change count (`SystemCount`).
  Committing uploads the local message and bumps the system change count.
* `BeState` gathers the three clipboard objects together with the
  file-static variables (`count_*`, `owned_*`, `last_notification_id`).

Native `BMessage` accessors used by the `be_enum_message` / `be_get_*` /
`be_add_*` wrappers are modelled as explicit `Except`-valued results of the
underlying native calls, with `B_OK = 0`; the wrappers translate those
status codes into the `int` convention of the file.
-/

namespace HaikuSelect

/-- Mirror of `enum haiku_clipboard` from haikuselect.h. -/
inductive HaikuClipboard where
  | CLIPBOARD_PRIMARY
  | CLIPBOARD_SECONDARY
  | CLIPBOARD_CLIPBOARD
deriving DecidableEq, Repr

/-- Payload stored under one field name of a clipboard data message
(the bytes handed to `AddData` / `ReplaceData`). -/
abbrev ClipPayload := List Nat

/-- Model of one native `BClipboard` object.  `lockOk` says whether
`Lock ()` succeeds, `dataAvail` whether `Data ()` returns a non-NULL
message; `msg` is the local (uncommitted) data message, `committed` the
last committed message, `commits` counts calls to `Commit ()`, and
`sysCount` is the native system change count returned by `SystemCount ()`
(committing bumps it). -/
structure BClipboardModel where
  lockOk : Bool
  dataAvail : Bool
  msg : List (String × ClipPayload)
  committed : List (String × ClipPayload)
  commits : Nat
  sysCount : Int
deriving DecidableEq, Repr

/-- The static state of haiku_select.cc: the three clipboard objects and
the file-scope variables `count_clipboard`, `count_primary`,
`count_secondary`, `owned_clipboard`, `owned_primary`, `owned_secondary`
and `last_notification_id`. -/
structure BeState where
  primary : BClipboardModel
  secondary : BClipboardModel
  system_clipboard : BClipboardModel
  count_clipboard : Int
  count_primary : Int
  count_secondary : Int
  owned_primary : Bool
  owned_secondary : Bool
  owned_clipboard : Bool
  last_notification_id : Int
deriving DecidableEq, Repr

/-- Model of `get_clipboard_object`: select the clipboard object for an id. -/
def get_clipboard_object (s : BeState) : HaikuClipboard → BClipboardModel
  | .CLIPBOARD_PRIMARY => s.primary
  | .CLIPBOARD_SECONDARY => s.secondary
  | .CLIPBOARD_CLIPBOARD => s.system_clipboard

/-- Replace the clipboard object selected by an id (the effect of mutating
through the pointer returned by `get_clipboard_object`). -/
def set_clipboard_object (s : BeState) (id : HaikuClipboard)
    (cb : BClipboardModel) : BeState :=
  match id with
  | .CLIPBOARD_PRIMARY => { s with primary := cb }
  | .CLIPBOARD_SECONDARY => { s with secondary := cb }
  | .CLIPBOARD_CLIPBOARD => { s with system_clipboard := cb }

/-- The stored change counter (`count_clipboard` / `count_primary` /
`count_secondary`) for an id. -/
def stored_count (s : BeState) : HaikuClipboard → Int
  | .CLIPBOARD_PRIMARY => s.count_primary
  | .CLIPBOARD_SECONDARY => s.count_secondary
  | .CLIPBOARD_CLIPBOARD => s.count_clipboard

/-- The owned flag (`owned_clipboard` / `owned_primary` /
`owned_secondary`) for an id. -/
def owned_flag (s : BeState) : HaikuClipboard → Bool
  | .CLIPBOARD_PRIMARY => s.owned_primary
  | .CLIPBOARD_SECONDARY => s.owned_secondary
  | .CLIPBOARD_CLIPBOARD => s.owned_clipboard

/-- Model of `BMessage::ReplaceData (name, B_MIME_TYPE, data, len)`: replace the
first field named `name`; `none` models the `B_NAME_NOT_FOUND` status when
no such field exists. -/
def msg_replace_data (m : List (String × ClipPayload)) (name : String)
    (d : ClipPayload) : Option (List (String × ClipPayload)) :=
  match m with
  | [] => none
  | (n, v) :: rest =>
    if n = name then some ((n, d) :: rest)
    else
      match msg_replace_data rest name d with
      | some rest' => some ((n, v) :: rest')
      | none => none

/-- Model of `BMessage::AddData (name, B_MIME_TYPE, data, len)`: append a field. -/
def msg_add_data (m : List (String × ClipPayload)) (name : String)
    (d : ClipPayload) : List (String × ClipPayload) :=
  m ++ [(name, d)]

/-- Model of `BMessage::RemoveName (name)`: remove every field named `name`. -/
def msg_remove_name (m : List (String × ClipPayload)) (name : String) :
    List (String × ClipPayload) :=
  m.filter (fun e => e.1 ≠ name)

/-- Model of `BClipboard::Commit ()`: upload the local message and bump the native
system change count. -/
def cb_commit (cb : BClipboardModel) : BClipboardModel :=
  { cb with committed := cb.msg, commits := cb.commits + 1,
            sysCount := cb.sysCount + 1 }

/-- Model of `be_set_clipboard_data_1 (cb, type, data, len, clear)`.  The C `data`
pointer and `len` are modelled together as `Option ClipPayload` (`none`
for a NULL `data`).  If `Lock` fails the object is untouched; otherwise
the message is optionally cleared, and if `Data` is unavailable the
function unlocks and returns; otherwise the field is replaced (added when
`ReplaceData` reports `B_NAME_NOT_FOUND`) or removed, and the clipboard is
committed before unlocking. -/
def be_set_clipboard_data_1 (cb : BClipboardModel) (type : String)
    (data : Option ClipPayload) (clear : Bool) : BClipboardModel :=
  if !cb.lockOk then cb
  else
    let cb := if clear then { cb with msg := [] } else cb
    if !cb.dataAvail then cb
    else
      match data with
      | some d =>
        match msg_replace_data cb.msg type d with
        | some m' => cb_commit { cb with msg := m' }
        | none => cb_commit { cb with msg := msg_add_data cb.msg type d }
      | none => cb_commit { cb with msg := msg_remove_name cb.msg type }

/-- Model of `be_update_clipboard_count (id)`: store the native system
count of the selected clipboard and raise its owned flag. -/
def be_update_clipboard_count (s : BeState) (id : HaikuClipboard) : BeState :=
  match id with
  | .CLIPBOARD_CLIPBOARD =>
    { s with count_clipboard := s.system_clipboard.sysCount,
             owned_clipboard := true }
  | .CLIPBOARD_PRIMARY =>
    { s with count_primary := s.primary.sysCount,
             owned_primary := true }
  | .CLIPBOARD_SECONDARY =>
    { s with count_secondary := s.secondary.sysCount,
             owned_secondary := true }

/-- Model of `be_set_clipboard_data (id, type, data, len, clear)`: first
`be_update_clipboard_count (id)`, then `be_set_clipboard_data_1` on the
object selected by `get_clipboard_object (id)`. -/
def be_set_clipboard_data (s : BeState) (id : HaikuClipboard) (type : String)
    (data : Option ClipPayload) (clear : Bool) : BeState :=
  let s := be_update_clipboard_count s id
  set_clipboard_object s id
    (be_set_clipboard_data_1 (get_clipboard_object s id) type data clear)

/-- Model of `clipboard_owner_p ()`. -/
def clipboard_owner_p (s : BeState) : Bool :=
  decide (0 ≤ s.count_clipboard)
    && decide (s.count_clipboard + 1 = s.system_clipboard.sysCount)

/-- Model of `primary_owner_p ()`. -/
def primary_owner_p (s : BeState) : Bool :=
  decide (0 ≤ s.count_primary)
    && decide (s.count_primary + 1 = s.primary.sysCount)

/-- Model of `secondary_owner_p ()`. -/
def secondary_owner_p (s : BeState) : Bool :=
  decide (0 ≤ s.count_secondary)
    && decide (s.count_secondary + 1 = s.secondary.sysCount)

/-- Model of `be_clipboard_owner_p (clipboard)`. -/
def be_clipboard_owner_p (s : BeState) : HaikuClipboard → Bool
  | .CLIPBOARD_PRIMARY => primary_owner_p s
  | .CLIPBOARD_SECONDARY => secondary_owner_p s
  | .CLIPBOARD_CLIPBOARD => clipboard_owner_p s

/-- Model of `be_handle_clipboard_changed_message ()`.  Reads the three native
system counts, and for each selection whose stored counter is distinct
from -1, whose native count strictly exceeds the stored counter plus one
and whose owned flag is set, clears the owned flag and calls
`haiku_selection_disowned (id, n)`; the calls are returned as an event
list in program order. -/
def be_handle_clipboard_changed_message (s : BeState) :
    BeState × List (HaikuClipboard × Int) :=
  let n_clipboard := s.system_clipboard.sysCount
  let n_primary := s.primary.sysCount
  let n_secondary := s.secondary.sysCount
  let r1 : BeState × List (HaikuClipboard × Int) :=
    if s.count_clipboard ≠ -1 ∧ n_clipboard > s.count_clipboard + 1
        ∧ s.owned_clipboard = true then
      ({ s with owned_clipboard := false },
        [(.CLIPBOARD_CLIPBOARD, n_clipboard)])
    else (s, [])
  let r2 : BeState × List (HaikuClipboard × Int) :=
    if s.count_primary ≠ -1 ∧ n_primary > s.count_primary + 1
        ∧ s.owned_primary = true then
      ({ r1.1 with owned_primary := false },
        r1.2 ++ [(.CLIPBOARD_PRIMARY, n_primary)])
    else r1
  if s.count_secondary ≠ -1 ∧ n_secondary > s.count_secondary + 1
      ∧ s.owned_secondary = true then
    ({ r2.1 with owned_secondary := false },
      r2.2 ++ [(.CLIPBOARD_SECONDARY, n_secondary)])
  else r2

/-- Model of `be_selection_outdated_p (id, count)`. -/
def be_selection_outdated_p (s : BeState) (id : HaikuClipboard)
    (count : Int) : Bool :=
  if id = .CLIPBOARD_CLIPBOARD ∧ s.count_clipboard > count then true
  else if id = .CLIPBOARD_PRIMARY ∧ s.count_primary > count then true
  else if id = .CLIPBOARD_SECONDARY ∧ s.count_secondary > count then true
  else false

/-- Model of `be_get_clipboard_count (id)`. -/
def be_get_clipboard_count (s : BeState) (id : HaikuClipboard) : Int :=
  (get_clipboard_object s id).sysCount

/-- Model of `be_lock_clipboard_message (clipboard, message_return, clear)`:
returns 1 when `Lock` fails; otherwise optionally clears the local
message and returns 0 together with the (updated) state. -/
def be_lock_clipboard_message (s : BeState) (id : HaikuClipboard)
    (clear : Bool) : BeState × Int :=
  let board := get_clipboard_object s id
  if !board.lockOk then (s, 1)
  else
    let board := if clear then { board with msg := [] } else board
    (set_clipboard_object s id board, 0)

/-- Model of `be_unlock_clipboard (clipboard, discard)`: `Revert` (restore the
local message from the committed one) when `discard`, otherwise
`Commit`. -/
def be_unlock_clipboard (s : BeState) (id : HaikuClipboard)
    (discard : Bool) : BeState :=
  let board := get_clipboard_object s id
  let board :=
    if discard then { board with msg := board.committed }
    else cb_commit board
  set_clipboard_object s id board

/- Notifications. -/

/-- Twos-complement wrap-around of an integer to the width of
`intmax_t` (64 bits): the value `ckd_add` stores on overflow. -/
def wrap64 (z : Int) : Int :=
  (z + 2 ^ 63) % 2 ^ 64 - 2 ^ 63

/-- Model of `be_display_notification (title, body, supersedes, type, icon)`,
restricted to its effect on `last_notification_id` and its return value.
When `supersedes` is negative, `ckd_add (&last_notification_id,
last_notification_id, 1)` stores the wrapped successor (the overflow flag
is ignored by the C code) and the new value is returned; otherwise
`supersedes` is returned and `last_notification_id` is untouched. -/
def be_display_notification (s : BeState) (supersedes : Int) :
    BeState × Int :=
  if supersedes < 0 then
    let nid := wrap64 (s.last_notification_id + 1)
    ({ s with last_notification_id := nid }, nid)
  else (s, supersedes)

/- Native BMessage accessors.  Each wrapper is parametrised by the
results of the native calls it makes: a native call returning `status_t`
together with outputs is an `Except Int α`, where `Except.ok` carries the
outputs of a `B_OK` return and `Except.error rc` a failing status `rc`
(so `rc ≠ B_OK`); a native call returning a bare status is an `Int`.
The own `int` result of the wrapper and the values it stores through its
output pointers are returned as a pair, `none` meaning the output
pointers were not written by the wrapper. -/

/-- The native `B_OK` status code. -/
def B_OK : Int := 0

/-- Model of `be_enum_message (message, tc, index, count, name_return)`:
`GetInfo` yields `(name, type, count)` on success; on success the wrapper
stores `*tc`, `*count` and `*name_return` and returns 0, otherwise it
returns 1 and stores nothing. -/
def be_enum_message (getInfo : Except Int (String × Int × Int)) :
    Int × Option (Int × Int × String) :=
  match getInfo with
  | .error _ => (1, none)
  | .ok (name, type, count) => (0, some (type, count, name))

/-- Model of `be_get_refs_data (message, name, index, path_buffer)`: composes
`FindRef`, `BEntry::SetTo` and `BEntry::GetPath`, returning 1 as soon as
one of them fails and otherwise storing the path string and
returning 0.  `Ref` and `Entry` are the native `entry_ref` / `BEntry`
values, opaque to the wrapper. -/
def be_get_refs_data {Ref Entry : Type} (findRef : Except Int Ref)
    (setTo : Ref → Except Int Entry)
    (getPath : Entry → Except Int String) : Int × Option String :=
  match findRef with
  | .error _ => (1, none)
  | .ok ref =>
    match setTo ref with
    | .error _ => (1, none)
    | .ok entry =>
      match getPath entry with
      | .error _ => (1, none)
      | .ok path => (0, some path)

/-- Model of `be_get_point_data (message, name, index, x, y)`: `FindPoint` yields
a point on success; the wrapper stores `*x` and `*y` and returns 0, or
returns 1 storing nothing.  `Flt` is the native `float` type, opaque to
the wrapper (the coordinates are only copied). -/
def be_get_point_data {Flt : Type} (findPoint : Except Int (Flt × Flt)) :
    Int × Option (Flt × Flt) :=
  match findPoint with
  | .error _ => (1, none)
  | .ok p => (0, some p)

/-- Model of `be_get_message_data (message, name, type_code, index, buf_return,
size_return)`: returns `FindData (...) != B_OK` as an int; `FindData`
stores the buffer pointer and size exactly on `B_OK`.  `Buf` is the
native buffer-pointer type. -/
def be_get_message_data {Buf : Type} (findData : Except Int (Buf × Int)) :
    Int × Option (Buf × Int) :=
  match findData with
  | .error _ => (1, none)
  | .ok out => (0, some out)

/-- Model of `be_add_message_data (message, name, type_code, buf, buf_size)`:
returns `AddData (...) != B_OK` as an int; `addData` is the status the
native call returns. -/
def be_add_message_data (addData : Int) : Int :=
  if addData ≠ B_OK then 1 else 0

/-- Model of `be_add_refs_data (message, name, filename)`: checks
`BEntry::InitCheck` on the constructed entry, then `GetRef`, then
`AddRef`, returning 1 on the first failure and otherwise
`AddRef (...) != B_OK` as an int. -/
def be_add_refs_data {Ref : Type} (initCheck : Int)
    (getRef : Except Int Ref) (addRef : Ref → Int) : Int :=
  if initCheck ≠ B_OK then 1
  else
    match getRef with
    | .error _ => 1
    | .ok ref => if addRef ref ≠ B_OK then 1 else 0

/-- Model of `be_add_point_data (message, name, x, y)`: returns
`AddPoint (...) != B_OK` as an int. -/
def be_add_point_data (addPoint : Int) : Int :=
  if addPoint ≠ B_OK then 1 else 0

/-- Model of `be_add_message_message (message, name, data)`: returns 1 when
`AddMessage` fails and 0 otherwise. -/
def be_add_message_message (addMessage : Int) : Int :=
  if addMessage ≠ B_OK then 1 else 0

/- A step machine over the entry points of the adapter that touch the static
state, used for the initial-state invariant.  `extSetCount` models the
native system count of one clipboard changing underneath the process
(another application committing); it touches no static variable of the
file. -/

/-- One call into the adapter (or one external change of a native system
count). -/
inductive BeCall where
  | updateCount (id : HaikuClipboard)
  | setData (id : HaikuClipboard) (type : String) (data : Option ClipPayload)
      (clear : Bool)
  | handleChanged
  | lockMessage (id : HaikuClipboard) (clear : Bool)
  | unlockClipboard (id : HaikuClipboard) (discard : Bool)
  | displayNotification (supersedes : Int)
  | extSetCount (id : HaikuClipboard) (n : Int)
deriving DecidableEq, Repr

/-- Effect of one call on the static state (return values dropped). -/
def BeCall.step (s : BeState) : BeCall → BeState
  | .updateCount id => be_update_clipboard_count s id
  | .setData id type data clear => be_set_clipboard_data s id type data clear
  | .handleChanged => (be_handle_clipboard_changed_message s).1
  | .lockMessage id clear => (be_lock_clipboard_message s id clear).1
  | .unlockClipboard id discard => be_unlock_clipboard s id discard
  | .displayNotification supersedes => (be_display_notification s supersedes).1
  | .extSetCount id n =>
    set_clipboard_object s id { get_clipboard_object s id with sysCount := n }

/-- Run a sequence of calls from a state. -/
def runCalls (s : BeState) : List BeCall → BeState
  | [] => s
  | c :: rest => runCalls (c.step s) rest

/-- Whether a call is `be_update_clipboard_count` or
`be_set_clipboard_data` on the given clipboard: the two calls that record
ownership of it. -/
def BeCall.claims_ownership (id : HaikuClipboard) : BeCall → Prop
  | .updateCount id' => id' = id
  | .setData id' _ _ _ => id' = id
  | _ => False

instance (id : HaikuClipboard) (c : BeCall) :
    Decidable (c.claims_ownership id) := by
  cases c <;> simp [BeCall.claims_ownership] <;> infer_instance

/-- A freshly created clipboard object: empty local and committed
messages, no commits yet, lock and data available. -/
def init_clipboard : BClipboardModel :=
  { lockOk := true, dataAvail := true, msg := [], committed := [],
    commits := 0, sysCount := 0 }

/-- The state right after `be_clipboard_init`: every counter is -1 and
every owned flag is false (the initial values of the static
variables), and `last_notification_id` is 0. -/
def init_state : BeState :=
  { primary := init_clipboard, secondary := init_clipboard,
    system_clipboard := init_clipboard,
    count_clipboard := -1, count_primary := -1, count_secondary := -1,
    owned_primary := false, owned_secondary := false,
    owned_clipboard := false, last_notification_id := 0 }

/- Frame lemmas shared by several claims. -/

/-- Reading back the object just written. -/
theorem get_set_clipboard_object_same (s : BeState) (id : HaikuClipboard)
    (cb : BClipboardModel) :
    get_clipboard_object (set_clipboard_object s id cb) id = cb := by
  cases id <;> rfl

/-- Writing one clipboard object leaves the others unchanged. -/
theorem get_set_clipboard_object_other (s : BeState)
    (id id' : HaikuClipboard) (cb : BClipboardModel) (h : id' ≠ id) :
    get_clipboard_object (set_clipboard_object s id cb) id'
      = get_clipboard_object s id' := by
  cases id <;> cases id' <;> first | rfl | exact absurd rfl h

/-- Writing a clipboard object touches no stored counter. -/
theorem stored_count_set_clipboard_object (s : BeState)
    (id id' : HaikuClipboard) (cb : BClipboardModel) :
    stored_count (set_clipboard_object s id cb) id' = stored_count s id' := by
  cases id <;> cases id' <;> rfl

/-- Writing a clipboard object touches no owned flag. -/
theorem owned_flag_set_clipboard_object (s : BeState)
    (id id' : HaikuClipboard) (cb : BClipboardModel) :
    owned_flag (set_clipboard_object s id cb) id' = owned_flag s id' := by
  cases id <;> cases id' <;> rfl

/-- The call `be_update_clipboard_count` touches no clipboard object. -/
theorem get_clipboard_object_update_count (s : BeState)
    (id id' : HaikuClipboard) :
    get_clipboard_object (be_update_clipboard_count s id) id'
      = get_clipboard_object s id' := by
  cases id <;> cases id' <;> rfl

/-- The call `be_update_clipboard_count` stores the system count of the
selected object. -/
theorem update_count_stored (s : BeState) (id : HaikuClipboard) :
    stored_count (be_update_clipboard_count s id) id
      = (get_clipboard_object s id).sysCount := by
  cases id <;> rfl

/-- The call `be_update_clipboard_count` raises the selected owned flag. -/
theorem update_count_owned (s : BeState) (id : HaikuClipboard) :
    owned_flag (be_update_clipboard_count s id) id = true := by
  cases id <;> rfl

/-- Behaviour of `be_set_clipboard_data_1` on success: the field update is applied to
the (possibly cleared) local message and the clipboard is committed. -/
theorem be_set_clipboard_data_1_success (cb : BClipboardModel)
    (type : String) (data : Option ClipPayload) (clear : Bool)
    (hlock : cb.lockOk = true) (hdata : cb.dataAvail = true) :
    be_set_clipboard_data_1 cb type data clear =
      cb_commit { cb with msg :=
        match data with
        | some d =>
          match msg_replace_data (if clear then [] else cb.msg) type d with
          | some m' => m'
          | none => msg_add_data (if clear then [] else cb.msg) type d
        | none => msg_remove_name (if clear then [] else cb.msg) type } := by
  unfold be_set_clipboard_data_1
  cases clear <;> simp [hlock, hdata] <;> cases data <;> simp <;>
    split <;> simp_all

/-- Behaviour of `be_set_clipboard_data_1` when `Lock` fails: no effect. -/
theorem be_set_clipboard_data_1_lock_fail (cb : BClipboardModel)
    (type : String) (data : Option ClipPayload) (clear : Bool)
    (hlock : cb.lockOk = false) :
    be_set_clipboard_data_1 cb type data clear = cb := by
  unfold be_set_clipboard_data_1
  simp [hlock]

/-- Behaviour of `be_set_clipboard_data_1` when `Data` is unavailable: only the
optional `Clear` happens. -/
theorem be_set_clipboard_data_1_data_fail (cb : BClipboardModel)
    (type : String) (data : Option ClipPayload) (clear : Bool)
    (hlock : cb.lockOk = true) (hdata : cb.dataAvail = false) :
    be_set_clipboard_data_1 cb type data clear =
      (if clear then { cb with msg := [] } else cb) := by
  unfold be_set_clipboard_data_1
  cases clear <;> simp [hlock, hdata]

/-- The model `msg_replace_data` reports `B_NAME_NOT_FOUND` exactly when the
message holds no field of the given name. -/
theorem msg_replace_data_eq_none (m : List (String × ClipPayload))
    (name : String) (d : ClipPayload) :
    msg_replace_data m name d = none ↔ ∀ e ∈ m, e.1 ≠ name := by
  induction m with
  | nil => simp [msg_replace_data]
  | cons hd tl ih =>
    obtain ⟨n, v⟩ := hd
    by_cases hn : n = name
    · subst hn
      simp [msg_replace_data]
    · simp only [msg_replace_data, if_neg hn]
      cases htl : msg_replace_data tl name d with
      | none =>
        have h2 := ih.mp htl
        constructor
        · intro _ e he
          rcases List.mem_cons.mp he with h | h
          · subst h
            exact hn
          · exact h2 e h
        · intro _
          rfl
      | some tl' => simp_all

/-- Membership in a conditional singleton list. -/
theorem mem_ite_singleton {A : Type} (a x : A) (c : Prop) [Decidable c] :
    (a ∈ if c then [x] else []) ↔ c ∧ a = x := by
  split <;> simp_all

/-- The disown events of `be_handle_clipboard_changed_message`, one
conditional singleton per selection, in program order. -/
theorem handle_events (s : BeState) :
    (be_handle_clipboard_changed_message s).2 =
      (if s.count_clipboard ≠ -1
          ∧ s.system_clipboard.sysCount > s.count_clipboard + 1
          ∧ s.owned_clipboard = true then
          [(HaikuClipboard.CLIPBOARD_CLIPBOARD, s.system_clipboard.sysCount)]
        else []) ++
      (if s.count_primary ≠ -1 ∧ s.primary.sysCount > s.count_primary + 1
          ∧ s.owned_primary = true then
          [(HaikuClipboard.CLIPBOARD_PRIMARY, s.primary.sysCount)]
        else []) ++
      (if s.count_secondary ≠ -1
          ∧ s.secondary.sysCount > s.count_secondary + 1
          ∧ s.owned_secondary = true then
          [(HaikuClipboard.CLIPBOARD_SECONDARY, s.secondary.sysCount)]
        else []) := by
  simp only [be_handle_clipboard_changed_message]
  split_ifs <;> simp

/-- The owned flag after `be_handle_clipboard_changed_message`. -/
theorem handle_owned (s : BeState) (id : HaikuClipboard) :
    owned_flag (be_handle_clipboard_changed_message s).1 id
      = if stored_count s id ≠ -1
            ∧ (get_clipboard_object s id).sysCount > stored_count s id + 1
            ∧ owned_flag s id = true then false
        else owned_flag s id := by
  cases id <;>
    · simp only [be_handle_clipboard_changed_message, stored_count,
        owned_flag, get_clipboard_object]
      split_ifs <;> simp_all [owned_flag]

/-!  ## The claims  -/

/-- C1: for every clipboard identifier, `be_clipboard_owner_p` returns
true iff the stored change counter is non-negative and the native system
change count equals the stored counter plus one. -/
theorem claim_C1 (s : BeState) (id : HaikuClipboard) :
    be_clipboard_owner_p s id = true ↔
      0 ≤ stored_count s id ∧
        (get_clipboard_object s id).sysCount = stored_count s id + 1 := by
  cases id <;>
    simp only [be_clipboard_owner_p, primary_owner_p, secondary_owner_p,
      clipboard_owner_p, stored_count, get_clipboard_object,
      Bool.and_eq_true, decide_eq_true_eq] <;>
    omega

/-- C5: `be_update_clipboard_count` stores the current native system
count of the selected clipboard and raises its owned flag; when the native
count has not decreased below the stored counter, the stored counter does
not decrease. -/
theorem claim_C5 (s : BeState) (id : HaikuClipboard) :
    stored_count (be_update_clipboard_count s id) id
        = (get_clipboard_object s id).sysCount ∧
      owned_flag (be_update_clipboard_count s id) id = true ∧
      (stored_count s id ≤ (get_clipboard_object s id).sysCount →
        stored_count s id ≤ stored_count (be_update_clipboard_count s id) id) := by
  cases id <;>
    simp [be_update_clipboard_count, stored_count, owned_flag,
      get_clipboard_object]

theorem claim_C5_witness :
    stored_count init_state HaikuClipboard.CLIPBOARD_PRIMARY
        ≤ (get_clipboard_object init_state
            HaikuClipboard.CLIPBOARD_PRIMARY).sysCount ∧
      stored_count init_state HaikuClipboard.CLIPBOARD_PRIMARY
        ≤ stored_count
            (be_update_clipboard_count init_state
              HaikuClipboard.CLIPBOARD_PRIMARY)
            HaikuClipboard.CLIPBOARD_PRIMARY :=
  ⟨by decide,
    (claim_C5 init_state HaikuClipboard.CLIPBOARD_PRIMARY).2.2 (by decide)⟩

/-- C6: `be_selection_outdated_p (id, count)` returns true iff the stored
change counter for `id` is strictly greater than `count`. -/
theorem claim_C6 (s : BeState) (id : HaikuClipboard) (count : Int) :
    be_selection_outdated_p s id count = true ↔ count < stored_count s id := by
  cases id <;> simp [be_selection_outdated_p, stored_count]

/-- C7: `be_display_notification` returns the identifier of the displayed
notification: a non-negative `supersedes` is returned unchanged with
`last_notification_id` untouched; a negative `supersedes` increments
`last_notification_id` (absent 64-bit overflow) and returns the new
value, so two successive calls with negative `supersedes` return strictly
increasing identifiers. -/
theorem claim_C7 (s : BeState) (supersedes : Int) :
    (0 ≤ supersedes →
        (be_display_notification s supersedes).2 = supersedes ∧
          (be_display_notification s supersedes).1.last_notification_id
            = s.last_notification_id) ∧
      (supersedes < 0 → -2 ^ 63 ≤ s.last_notification_id →
        s.last_notification_id < 2 ^ 63 - 1 →
        (be_display_notification s supersedes).1.last_notification_id
            = s.last_notification_id + 1 ∧
          (be_display_notification s supersedes).2
            = s.last_notification_id + 1) ∧
      (∀ sup' : Int, supersedes < 0 → sup' < 0 →
        -2 ^ 63 ≤ s.last_notification_id →
        s.last_notification_id < 2 ^ 63 - 2 →
        (be_display_notification s supersedes).2
          < (be_display_notification
              (be_display_notification s supersedes).1 sup').2) := by
  refine ⟨fun h => ?_, fun h hlo hhi => ?_, fun sup' h h' hlo hhi => ?_⟩
  · simp [be_display_notification, not_lt.mpr h]
  · have hw : wrap64 (s.last_notification_id + 1) = s.last_notification_id + 1 := by
      unfold wrap64
      omega
    simp [be_display_notification, h, hw]
  · have hw : wrap64 (s.last_notification_id + 1) = s.last_notification_id + 1 := by
      unfold wrap64
      omega
    have hw2 : wrap64 (s.last_notification_id + 1 + 1)
        = s.last_notification_id + 1 + 1 := by
      unfold wrap64
      omega
    simp [be_display_notification, h, h', hw, hw2]

/-- C3: when the selected clipboard can be locked and its data message
is available, `be_set_clipboard_data (id, type, data, len, clear)` first
clears the message when `clear` is set, then replaces the data stored
under `type` (adding it when `ReplaceData` finds no field of that name,
which happens exactly when no entry of that type exists) or, for NULL
`data`, removes the entry named `type`; the result is committed before
unlocking. -/
theorem claim_C3 (s : BeState) (id : HaikuClipboard) (type : String)
    (data : Option ClipPayload) (clear : Bool)
    (hlock : (get_clipboard_object s id).lockOk = true)
    (hdata : (get_clipboard_object s id).dataAvail = true) :
    (∀ d : ClipPayload, data = some d →
        (get_clipboard_object (be_set_clipboard_data s id type data clear)
              id).msg =
            (match msg_replace_data
                (if clear then [] else (get_clipboard_object s id).msg)
                type d with
              | some m' => m'
              | none =>
                msg_add_data
                  (if clear then [] else (get_clipboard_object s id).msg)
                  type d) ∧
          (msg_replace_data
              (if clear then [] else (get_clipboard_object s id).msg)
              type d = none ↔
            ∀ e ∈ (if clear then [] else (get_clipboard_object s id).msg),
              e.1 ≠ type)) ∧
      (data = none →
        (get_clipboard_object (be_set_clipboard_data s id type data clear)
            id).msg =
          msg_remove_name
            (if clear then [] else (get_clipboard_object s id).msg) type) ∧
      (get_clipboard_object (be_set_clipboard_data s id type data clear)
          id).committed =
        (get_clipboard_object (be_set_clipboard_data s id type data clear)
          id).msg ∧
      (get_clipboard_object (be_set_clipboard_data s id type data clear)
          id).commits = (get_clipboard_object s id).commits + 1 := by
  have hobj :
      get_clipboard_object (be_set_clipboard_data s id type data clear) id
        = be_set_clipboard_data_1 (get_clipboard_object s id) type data
            clear := by
    unfold be_set_clipboard_data
    rw [get_set_clipboard_object_same, get_clipboard_object_update_count]
  rw [hobj, be_set_clipboard_data_1_success _ _ _ _ hlock hdata]
  refine ⟨fun d hd => ?_, fun hd => ?_, ?_, ?_⟩
  · subst hd
    exact ⟨rfl, msg_replace_data_eq_none _ _ _⟩
  · subst hd
    rfl
  · rfl
  · rfl

theorem claim_C3_witness :
    (get_clipboard_object init_state HaikuClipboard.CLIPBOARD_PRIMARY).lockOk
        = true ∧
      (get_clipboard_object init_state
          HaikuClipboard.CLIPBOARD_PRIMARY).dataAvail = true ∧
      (get_clipboard_object
          (be_set_clipboard_data init_state HaikuClipboard.CLIPBOARD_PRIMARY
            ("text/plain") (some [104, 105]) false)
          HaikuClipboard.CLIPBOARD_PRIMARY).msg
        = [("text/plain", [104, 105])] ∧
      (get_clipboard_object
          (be_set_clipboard_data init_state HaikuClipboard.CLIPBOARD_PRIMARY
            ("text/plain") (some [104, 105]) false)
          HaikuClipboard.CLIPBOARD_PRIMARY).commits = 1 := by
  have h := claim_C3 init_state HaikuClipboard.CLIPBOARD_PRIMARY
    ("text/plain") (some [104, 105]) false rfl rfl
  refine ⟨rfl, rfl, ?_, ?_⟩
  · have h1 := (h.1 [104, 105] rfl).1
    simpa using h1
  · simpa using h.2.2.2

/-- C9: `be_set_clipboard_data` records ownership (stores the native
count and raises the owned flag) before attempting the write, so when
the write fails — `Lock` fails or the data message is unavailable —
ownership is still recorded while nothing is committed: the commit
counter, committed message and system count of the selected object are
unchanged, and the local message is at most cleared. -/
theorem claim_C9 (s : BeState) (id : HaikuClipboard) (type : String)
    (data : Option ClipPayload) (clear : Bool)
    (h : (get_clipboard_object s id).lockOk = false
        ∨ (get_clipboard_object s id).dataAvail = false) :
    owned_flag (be_set_clipboard_data s id type data clear) id = true ∧
      stored_count (be_set_clipboard_data s id type data clear) id
        = (get_clipboard_object s id).sysCount ∧
      (get_clipboard_object (be_set_clipboard_data s id type data clear)
          id).commits = (get_clipboard_object s id).commits ∧
      (get_clipboard_object (be_set_clipboard_data s id type data clear)
          id).committed = (get_clipboard_object s id).committed ∧
      (get_clipboard_object (be_set_clipboard_data s id type data clear)
          id).sysCount = (get_clipboard_object s id).sysCount ∧
      (get_clipboard_object (be_set_clipboard_data s id type data clear)
          id).msg =
        (if (get_clipboard_object s id).lockOk && clear then []
          else (get_clipboard_object s id).msg) := by
  have hobj :
      get_clipboard_object (be_set_clipboard_data s id type data clear) id
        = be_set_clipboard_data_1 (get_clipboard_object s id) type data
            clear := by
    unfold be_set_clipboard_data
    rw [get_set_clipboard_object_same, get_clipboard_object_update_count]
  have howned :
      owned_flag (be_set_clipboard_data s id type data clear) id = true := by
    unfold be_set_clipboard_data
    rw [owned_flag_set_clipboard_object, update_count_owned]
  have hstored :
      stored_count (be_set_clipboard_data s id type data clear) id
        = (get_clipboard_object s id).sysCount := by
    unfold be_set_clipboard_data
    rw [stored_count_set_clipboard_object, update_count_stored]
  refine ⟨howned, hstored, ?_⟩
  rw [hobj]
  rcases h with h | h
  · rw [be_set_clipboard_data_1_lock_fail _ _ _ _ h, h]
    simp
  · rcases hl : (get_clipboard_object s id).lockOk with _ | _
    · rw [be_set_clipboard_data_1_lock_fail _ _ _ _ hl]
      simp
    · rw [be_set_clipboard_data_1_data_fail _ _ _ _ hl h]
      cases clear <;> simp

theorem claim_C9_witness :
    ((get_clipboard_object
          { init_state with
              primary := { init_clipboard with lockOk := false } }
          HaikuClipboard.CLIPBOARD_PRIMARY).lockOk = false ∨
        (get_clipboard_object
          { init_state with
              primary := { init_clipboard with lockOk := false } }
          HaikuClipboard.CLIPBOARD_PRIMARY).dataAvail = false) ∧
      owned_flag
          (be_set_clipboard_data
            { init_state with
                primary := { init_clipboard with lockOk := false } }
            HaikuClipboard.CLIPBOARD_PRIMARY ("text/plain")
            (some [104]) true)
          HaikuClipboard.CLIPBOARD_PRIMARY = true ∧
      (get_clipboard_object
          (be_set_clipboard_data
            { init_state with
                primary := { init_clipboard with lockOk := false } }
            HaikuClipboard.CLIPBOARD_PRIMARY ("text/plain")
            (some [104]) true)
          HaikuClipboard.CLIPBOARD_PRIMARY).commits = 0 := by
  have h := claim_C9
    { init_state with primary := { init_clipboard with lockOk := false } }
    HaikuClipboard.CLIPBOARD_PRIMARY ("text/plain") (some [104]) true
    (Or.inl rfl)
  exact ⟨Or.inl rfl, h.1, by simpa using h.2.2.1⟩

/-- C8: the three clipboard-like objects are disjoint:
`be_set_clipboard_data (id, ...)` and `be_update_clipboard_count (id)`
change neither the stored counters nor the owned flags nor the clipboard
objects of the other two selections, and `be_lock_clipboard_message` and
`be_unlock_clipboard` act only on the object selected by
`get_clipboard_object` and never touch counters or flags. -/
theorem claim_C8 (s : BeState) (id id' : HaikuClipboard) (type : String)
    (data : Option ClipPayload) (clear discard : Bool) (h : id' ≠ id) :
    stored_count (be_set_clipboard_data s id type data clear) id'
        = stored_count s id' ∧
      owned_flag (be_set_clipboard_data s id type data clear) id'
        = owned_flag s id' ∧
      get_clipboard_object (be_set_clipboard_data s id type data clear) id'
        = get_clipboard_object s id' ∧
      stored_count (be_update_clipboard_count s id) id'
        = stored_count s id' ∧
      owned_flag (be_update_clipboard_count s id) id' = owned_flag s id' ∧
      get_clipboard_object (be_update_clipboard_count s id) id'
        = get_clipboard_object s id' ∧
      get_clipboard_object (be_lock_clipboard_message s id clear).1 id'
        = get_clipboard_object s id' ∧
      get_clipboard_object (be_unlock_clipboard s id discard) id'
        = get_clipboard_object s id' ∧
      (∀ j : HaikuClipboard,
        stored_count (be_lock_clipboard_message s id clear).1 j
            = stored_count s j ∧
          owned_flag (be_lock_clipboard_message s id clear).1 j
            = owned_flag s j ∧
          stored_count (be_unlock_clipboard s id discard) j
            = stored_count s j ∧
          owned_flag (be_unlock_clipboard s id discard) j
            = owned_flag s j) := by
  have hupd : ∀ t : BeState,
      stored_count (be_update_clipboard_count t id) id'
          = stored_count t id' ∧
        owned_flag (be_update_clipboard_count t id) id' = owned_flag t id' ∧
        get_clipboard_object (be_update_clipboard_count t id) id'
          = get_clipboard_object t id' := by
    intro t
    cases id <;> cases id' <;>
      first
        | exact absurd rfl h
        | exact ⟨rfl, rfl, rfl⟩
  have hlock1 :
      get_clipboard_object (be_lock_clipboard_message s id clear).1 id'
        = get_clipboard_object s id' := by
    rcases hl : (get_clipboard_object s id).lockOk with _ | _
    · simp [be_lock_clipboard_message, hl]
    · simp only [be_lock_clipboard_message, hl, Bool.not_true,
        Bool.false_eq_true, if_false]
      exact get_set_clipboard_object_other _ _ _ _ h
  have hunlock1 :
      get_clipboard_object (be_unlock_clipboard s id discard) id'
        = get_clipboard_object s id' := by
    unfold be_unlock_clipboard
    exact get_set_clipboard_object_other _ _ _ _ h
  have hlockcnt : ∀ j : HaikuClipboard,
      stored_count (be_lock_clipboard_message s id clear).1 j
          = stored_count s j ∧
        owned_flag (be_lock_clipboard_message s id clear).1 j
          = owned_flag s j := by
    intro j
    rcases hl : (get_clipboard_object s id).lockOk with _ | _
    · simp [be_lock_clipboard_message, hl]
    · simp only [be_lock_clipboard_message, hl, Bool.not_true,
        Bool.false_eq_true, if_false]
      exact ⟨stored_count_set_clipboard_object _ _ _ _,
        owned_flag_set_clipboard_object _ _ _ _⟩
  have hdat :
      stored_count (be_set_clipboard_data s id type data clear) id'
          = stored_count s id' ∧
        owned_flag (be_set_clipboard_data s id type data clear) id'
          = owned_flag s id' ∧
        get_clipboard_object (be_set_clipboard_data s id type data clear)
          id' = get_clipboard_object s id' := by
    unfold be_set_clipboard_data
    rw [stored_count_set_clipboard_object, owned_flag_set_clipboard_object,
      get_set_clipboard_object_other _ _ _ _ h]
    exact hupd s
  refine ⟨hdat.1, hdat.2.1, hdat.2.2, (hupd s).1, (hupd s).2.1,
    (hupd s).2.2, hlock1, hunlock1, fun j => ?_⟩
  refine ⟨(hlockcnt j).1, (hlockcnt j).2, ?_, ?_⟩
  · unfold be_unlock_clipboard
    exact stored_count_set_clipboard_object _ _ _ _
  · unfold be_unlock_clipboard
    exact owned_flag_set_clipboard_object _ _ _ _

theorem claim_C8_witness :
    HaikuClipboard.CLIPBOARD_SECONDARY ≠ HaikuClipboard.CLIPBOARD_PRIMARY ∧
      stored_count
          (be_set_clipboard_data init_state HaikuClipboard.CLIPBOARD_PRIMARY
            ("text/plain") (some [104]) true)
          HaikuClipboard.CLIPBOARD_SECONDARY
        = stored_count init_state HaikuClipboard.CLIPBOARD_SECONDARY :=
  ⟨by decide,
    (claim_C8 init_state HaikuClipboard.CLIPBOARD_PRIMARY
      HaikuClipboard.CLIPBOARD_SECONDARY ("text/plain") (some [104])
      true false (by decide)).1⟩

theorem claim_C7_witness :
    ((-1 : Int) < 0 ∧ -2 ^ 63 ≤ init_state.last_notification_id ∧
        init_state.last_notification_id < 2 ^ 63 - 1) ∧
      (be_display_notification init_state (-1)).1.last_notification_id
          = init_state.last_notification_id + 1 ∧
        (be_display_notification init_state (-1)).2
          = init_state.last_notification_id + 1 :=
  ⟨by decide,
    (claim_C7 init_state (-1)).2.1 (by decide) (by decide) (by decide)⟩

/-- C2: `be_handle_clipboard_changed_message` disowns a selection —
clears its owned flag and calls `haiku_selection_disowned` with the new
native count — exactly when its stored counter differs from -1, its
owned flag is set, and the native count strictly exceeds the stored
counter plus one; a native count equal to the stored counter plus one
(the change the process itself caused) never triggers disownment. -/
theorem claim_C2 (s : BeState) (id : HaikuClipboard) :
    (∀ m : Int,
        (id, m) ∈ (be_handle_clipboard_changed_message s).2 ↔
          stored_count s id ≠ -1 ∧ owned_flag s id = true ∧
            (get_clipboard_object s id).sysCount > stored_count s id + 1 ∧
            m = (get_clipboard_object s id).sysCount) ∧
      (stored_count s id ≠ -1 ∧ owned_flag s id = true ∧
          (get_clipboard_object s id).sysCount > stored_count s id + 1 →
        owned_flag (be_handle_clipboard_changed_message s).1 id = false) ∧
      (¬(stored_count s id ≠ -1 ∧ owned_flag s id = true ∧
          (get_clipboard_object s id).sysCount > stored_count s id + 1) →
        owned_flag (be_handle_clipboard_changed_message s).1 id
          = owned_flag s id) ∧
      ((get_clipboard_object s id).sysCount = stored_count s id + 1 →
        (∀ m : Int, (id, m) ∉ (be_handle_clipboard_changed_message s).2) ∧
          owned_flag (be_handle_clipboard_changed_message s).1 id
            = owned_flag s id) := by
  have hmem : ∀ m : Int,
      (id, m) ∈ (be_handle_clipboard_changed_message s).2 ↔
        stored_count s id ≠ -1 ∧ owned_flag s id = true ∧
          (get_clipboard_object s id).sysCount > stored_count s id + 1 ∧
          m = (get_clipboard_object s id).sysCount := by
    intro m
    rw [handle_events]
    cases id <;>
      · simp [stored_count, owned_flag, get_clipboard_object,
          List.mem_append, mem_ite_singleton, Prod.mk.injEq]
        try tauto
  have howned :
      owned_flag (be_handle_clipboard_changed_message s).1 id
        = if stored_count s id ≠ -1
              ∧ (get_clipboard_object s id).sysCount > stored_count s id + 1
              ∧ owned_flag s id = true then false
          else owned_flag s id := handle_owned s id
  refine ⟨hmem, fun hc => ?_, fun hc => ?_, fun he => ?_⟩
  · rw [howned, if_pos ⟨hc.1, hc.2.2, hc.2.1⟩]
  · rw [howned, if_neg (fun hx => hc ⟨hx.1, hx.2.2, hx.2.1⟩)]
  · have hnb : ¬((get_clipboard_object s id).sysCount
        > stored_count s id + 1) := by omega
    refine ⟨fun m hm => ?_, ?_⟩
    · exact hnb ((hmem m).mp hm).2.2.1
    · rw [howned, if_neg (fun hx => hnb hx.2.1)]

/-- A state where the process recorded count 0 for the primary selection
it owns, after which the native count reached 5: an external change. -/
def primary_changed_state : BeState :=
  { init_state with
      count_primary := 0
      owned_primary := true
      primary := { init_clipboard with sysCount := 5 } }

theorem claim_C2_witness :
    ((HaikuClipboard.CLIPBOARD_PRIMARY, (5 : Int)) ∈
        (be_handle_clipboard_changed_message primary_changed_state).2) ∧
      owned_flag (be_handle_clipboard_changed_message primary_changed_state).1
          HaikuClipboard.CLIPBOARD_PRIMARY = false := by
  have h := claim_C2 primary_changed_state HaikuClipboard.CLIPBOARD_PRIMARY
  refine ⟨(h.1 5).mpr ⟨by decide, rfl, by decide, rfl⟩,
    h.2.1 ⟨by decide, rfl, by decide⟩⟩

/-- C4: each message and refs accessor translates the native status codes
into the int convention: it returns 0 exactly when every underlying
native call returns `B_OK`, returns 1 otherwise, and stores through its
output pointers exactly on the 0 path. -/
theorem claim_C4 :
    (∀ g : Except Int (String × Int × Int),
        ((be_enum_message g).1 = 0 ↔ ∃ v, g = .ok v) ∧
          ((be_enum_message g).1 = 0 ∨ (be_enum_message g).1 = 1) ∧
          ((be_enum_message g).2.isSome ↔ (be_enum_message g).1 = 0)) ∧
      (∀ (Ref Entry : Type) (findRef : Except Int Ref)
          (setTo : Ref → Except Int Entry)
          (getPath : Entry → Except Int String),
        ((be_get_refs_data findRef setTo getPath).1 = 0 ↔
            ∃ ref entry path, findRef = .ok ref ∧ setTo ref = .ok entry ∧
              getPath entry = .ok path) ∧
          ((be_get_refs_data findRef setTo getPath).1 = 0 ∨
            (be_get_refs_data findRef setTo getPath).1 = 1) ∧
          ((be_get_refs_data findRef setTo getPath).2.isSome ↔
            (be_get_refs_data findRef setTo getPath).1 = 0)) ∧
      (∀ (Flt : Type) (findPoint : Except Int (Flt × Flt)),
        ((be_get_point_data findPoint).1 = 0 ↔ ∃ p, findPoint = .ok p) ∧
          ((be_get_point_data findPoint).1 = 0 ∨
            (be_get_point_data findPoint).1 = 1) ∧
          ((be_get_point_data findPoint).2.isSome ↔
            (be_get_point_data findPoint).1 = 0)) ∧
      (∀ (Buf : Type) (findData : Except Int (Buf × Int)),
        ((be_get_message_data findData).1 = 0 ↔ ∃ v, findData = .ok v) ∧
          ((be_get_message_data findData).1 = 0 ∨
            (be_get_message_data findData).1 = 1) ∧
          ((be_get_message_data findData).2.isSome ↔
            (be_get_message_data findData).1 = 0)) ∧
      (∀ a : Int,
        (be_add_message_data a = 0 ↔ a = B_OK) ∧
          (be_add_message_data a = 1 ↔ a ≠ B_OK)) ∧
      (∀ (Ref : Type) (initCheck : Int) (getRef : Except Int Ref)
          (addRef : Ref → Int),
        (be_add_refs_data initCheck getRef addRef = 0 ↔
            initCheck = B_OK ∧
              ∃ ref, getRef = .ok ref ∧ addRef ref = B_OK) ∧
          (be_add_refs_data initCheck getRef addRef = 0 ∨
            be_add_refs_data initCheck getRef addRef = 1)) ∧
      (∀ a : Int,
        (be_add_point_data a = 0 ↔ a = B_OK) ∧
          (be_add_point_data a = 1 ↔ a ≠ B_OK)) ∧
      (∀ a : Int,
        (be_add_message_message a = 0 ↔ a = B_OK) ∧
          (be_add_message_message a = 1 ↔ a ≠ B_OK)) := by
  refine ⟨fun g => ?_, fun Ref Entry findRef setTo getPath => ?_,
    fun Flt findPoint => ?_, fun Buf findData => ?_, fun a => ?_,
    fun Ref initCheck getRef addRef => ?_, fun a => ?_, fun a => ?_⟩
  · cases g <;> simp [be_enum_message]
  · cases findRef with
    | error e => simp [be_get_refs_data]
    | ok ref =>
      cases hs : setTo ref with
      | error e => simp [be_get_refs_data, hs]
      | ok entry =>
        cases hp : getPath entry with
        | error e => simp [be_get_refs_data, hs, hp]
        | ok path =>
          refine ⟨?_, ?_, ?_⟩
          · simp only [be_get_refs_data, hs, hp]
            constructor
            · intro _
              exact ⟨ref, entry, path, rfl, hs, hp⟩
            · intro _
              trivial
          · simp [be_get_refs_data, hs, hp]
          · simp [be_get_refs_data, hs, hp]
  · cases findPoint <;> simp [be_get_point_data]
  · cases findData <;> simp [be_get_message_data]
  · unfold be_add_message_data
    by_cases ha : a = B_OK <;> simp [ha]
  · cases getRef with
    | error e =>
      by_cases hi : initCheck = B_OK <;>
        simp [be_add_refs_data, hi]
    | ok ref =>
      by_cases hi : initCheck = B_OK <;>
        by_cases hr : addRef ref = B_OK <;>
        simp [be_add_refs_data, hi, hr]
  · unfold be_add_point_data
    by_cases ha : a = B_OK <;> simp [ha]
  · unfold be_add_message_message
    by_cases ha : a = B_OK <;> simp [ha]

/-- The handler `be_handle_clipboard_changed_message` changes no stored counter. -/
theorem handle_stored (s : BeState) (id : HaikuClipboard) :
    stored_count (be_handle_clipboard_changed_message s).1 id
      = stored_count s id := by
  cases id <;>
    · simp only [be_handle_clipboard_changed_message, stored_count]
      split_ifs <;> rfl

/-- The call `be_lock_clipboard_message` touches no counter and no owned flag. -/
theorem lock_message_counts (s : BeState) (id j : HaikuClipboard)
    (clear : Bool) :
    stored_count (be_lock_clipboard_message s id clear).1 j
        = stored_count s j ∧
      owned_flag (be_lock_clipboard_message s id clear).1 j
        = owned_flag s j := by
  rcases hl : (get_clipboard_object s id).lockOk with _ | _
  · simp [be_lock_clipboard_message, hl]
  · simp only [be_lock_clipboard_message, hl, Bool.not_true,
      Bool.false_eq_true, if_false]
    exact ⟨stored_count_set_clipboard_object _ _ _ _,
      owned_flag_set_clipboard_object _ _ _ _⟩

/-- A selection whose counter is still -1 yields no disown event. -/
theorem handle_no_event_of_untracked (t : BeState) (id : HaikuClipboard)
    (h0 : stored_count t id = -1) :
    ∀ m : Int, (id, m) ∉ (be_handle_clipboard_changed_message t).2 := by
  intro m hm
  rw [handle_events] at hm
  cases id <;> simp_all [stored_count, mem_ite_singleton, Prod.mk.injEq]

/-- The handler `be_handle_clipboard_changed_message` never raises an owned flag. -/
theorem handle_owned_monotone (t : BeState) (id : HaikuClipboard)
    (h : owned_flag (be_handle_clipboard_changed_message t).1 id = true) :
    owned_flag t id = true := by
  rw [handle_owned] at h
  split at h
  · exact absurd h (by simp)
  · exact h

/-- One non-ownership-recording call preserves the untracked state
(counter -1, flag down) of a selection. -/
theorem untracked_step (s : BeState) (id : HaikuClipboard) (c : BeCall)
    (hc : ¬ c.claims_ownership id)
    (h0 : stored_count s id = -1) (h1 : owned_flag s id = false) :
    stored_count (c.step s) id = -1 ∧ owned_flag (c.step s) id = false := by
  cases c with
  | updateCount id' =>
    cases id' <;> cases id <;>
      simp_all [BeCall.step, BeCall.claims_ownership,
        be_update_clipboard_count, stored_count, owned_flag]
  | setData id' type data clear =>
    simp only [BeCall.step, be_set_clipboard_data,
      stored_count_set_clipboard_object, owned_flag_set_clipboard_object]
    cases id' <;> cases id <;>
      simp_all [BeCall.claims_ownership, be_update_clipboard_count,
        stored_count, owned_flag]
  | handleChanged =>
    refine ⟨(handle_stored s id).trans h0, ?_⟩
    show owned_flag (be_handle_clipboard_changed_message s).1 id = false
    rw [handle_owned, h1]
    split <;> rfl
  | lockMessage id' clear =>
    exact ⟨(lock_message_counts s id' id clear).1.trans h0,
      (lock_message_counts s id' id clear).2.trans h1⟩
  | unlockClipboard id' discard =>
    simp only [BeCall.step, be_unlock_clipboard,
      stored_count_set_clipboard_object, owned_flag_set_clipboard_object]
    exact ⟨h0, h1⟩
  | displayNotification supersedes =>
    by_cases hs : supersedes < 0
    · cases id <;>
        simp_all [BeCall.step, be_display_notification, if_pos hs,
          stored_count, owned_flag]
    · cases id <;>
        simp_all [BeCall.step, be_display_notification, if_neg hs,
          stored_count, owned_flag]
  | extSetCount id' n =>
    simp only [BeCall.step, stored_count_set_clipboard_object,
      owned_flag_set_clipboard_object]
    exact ⟨h0, h1⟩

/-- A sequence of non-ownership-recording calls preserves the untracked
state of a selection. -/
theorem untracked_run (id : HaikuClipboard) (calls : List BeCall) :
    ∀ s : BeState, (∀ c ∈ calls, ¬ c.claims_ownership id) →
      stored_count s id = -1 → owned_flag s id = false →
      stored_count (runCalls s calls) id = -1 ∧
        owned_flag (runCalls s calls) id = false := by
  induction calls with
  | nil => exact fun s _ h0 h1 => ⟨h0, h1⟩
  | cons c rest ih =>
    intro s hc h0 h1
    have hstep := untracked_step s id c (hc c (List.mem_cons_self c rest))
      h0 h1
    exact ih (c.step s) (fun d hd => hc d (List.mem_cons_of_mem c hd))
      hstep.1 hstep.2

/-- C10: starting from a state where the stored counter of a clipboard is -1
and its owned flag is down, any sequence of adapter calls that never
records ownership of it (no `be_update_clipboard_count` and no
`be_set_clipboard_data` for it) leaves that so; in every such state
`be_clipboard_owner_p` is false, `be_selection_outdated_p` is false for
every count ≥ -1, and `be_handle_clipboard_changed_message` produces no
disown event for it; moreover that handler never raises an owned flag,
so ownership is gained only through `be_update_clipboard_count`. -/
theorem claim_C10 (s : BeState) (id : HaikuClipboard) (calls : List BeCall)
    (h0 : stored_count s id = -1) (h1 : owned_flag s id = false)
    (hc : ∀ c ∈ calls, ¬ c.claims_ownership id) :
    stored_count (runCalls s calls) id = -1 ∧
      owned_flag (runCalls s calls) id = false ∧
      be_clipboard_owner_p (runCalls s calls) id = false ∧
      (∀ count : Int, -1 ≤ count →
        be_selection_outdated_p (runCalls s calls) id count = false) ∧
      (∀ m : Int,
        (id, m) ∉ (be_handle_clipboard_changed_message
          (runCalls s calls)).2) ∧
      (∀ t : BeState,
        owned_flag (be_handle_clipboard_changed_message t).1 id = true →
          owned_flag t id = true) := by
  obtain ⟨g0, g1⟩ := untracked_run id calls s hc h0 h1
  refine ⟨g0, g1, ?_, ?_, handle_no_event_of_untracked _ _ g0,
    fun t => handle_owned_monotone t id⟩
  · cases id <;>
      simp_all [be_clipboard_owner_p, clipboard_owner_p, primary_owner_p,
        secondary_owner_p, stored_count]
  · intro count hcount
    cases id <;>
      simp_all [be_selection_outdated_p, stored_count]

/-- Calls that never record ownership of the primary selection. -/
def c10_calls : List BeCall :=
  [BeCall.updateCount HaikuClipboard.CLIPBOARD_CLIPBOARD,
    BeCall.extSetCount HaikuClipboard.CLIPBOARD_PRIMARY 3,
    BeCall.handleChanged]

theorem claim_C10_witness :
    (stored_count init_state HaikuClipboard.CLIPBOARD_PRIMARY = -1 ∧
        owned_flag init_state HaikuClipboard.CLIPBOARD_PRIMARY = false ∧
        ¬ (BeCall.updateCount
            HaikuClipboard.CLIPBOARD_CLIPBOARD).claims_ownership
            HaikuClipboard.CLIPBOARD_PRIMARY ∧
        ¬ (BeCall.extSetCount HaikuClipboard.CLIPBOARD_PRIMARY
            3).claims_ownership HaikuClipboard.CLIPBOARD_PRIMARY ∧
        ¬ BeCall.handleChanged.claims_ownership
            HaikuClipboard.CLIPBOARD_PRIMARY) ∧
      stored_count (runCalls init_state c10_calls)
          HaikuClipboard.CLIPBOARD_PRIMARY = -1 ∧
        owned_flag (runCalls init_state c10_calls)
          HaikuClipboard.CLIPBOARD_PRIMARY = false ∧
        be_clipboard_owner_p (runCalls init_state c10_calls)
          HaikuClipboard.CLIPBOARD_PRIMARY = false := by
  have h := claim_C10 init_state HaikuClipboard.CLIPBOARD_PRIMARY c10_calls
    (by decide) (by decide) (by decide)
  exact ⟨⟨by decide, by decide, by decide, by decide, by decide⟩,
    h.1, h.2.1, h.2.2.1⟩

end HaikuSelect
